import Mathlib

/-
  Verification development for the omdb-movie-search application.

  The definitions below are a shallow embedding of the client-side logic in
  src/App.tsx and src/types.ts: the year-range result filter
  (filterMoviesByYearRange), the search controller (searchMovies, loadMore,
  the year-range re-filter effect), and the watchlist manager
  (addToWatchlist together with the dialog-opening effect).

  Modelling conventions:
  - JavaScript strings are Lean Strings, inspected through their character
    lists (String.toList), so that all operations compute in the kernel.
  - JavaScript parseInt is modelled for decimal inputs: leading whitespace,
    an optional sign, then a longest prefix of decimal digits; no digits
    means NaN, encoded as none.  (The hexadecimal 0x-prefix path of parseInt
    is not exercised by any release-year or totalResults string considered
    here and is not modelled.)
  - JavaScript numbers are IEEE-754 binary64 values.  Where the code does
    exact integer work (lengths, comparisons, page counters) they are
    modelled as Int; where rounding matters (the ratio and product inside
    the estimated-total computation) the double values are modelled as
    exact fractions of integers together with an explicit round-to-nearest,
    ties-to-even rounding function (roundD).  Overflow to infinity and
    subnormal underflow are outside the magnitudes that arise here and are
    not modelled.
  - new Date().getFullYear() is passed in as an explicit parameter cur.
  - The asynchronous searchMovies function is modelled as an atomic step
    from the state at call time and the outcome of the single HTTP request
    to the state after the final setState calls; the finally block makes
    loading false in every completed outcome.
-/

/-- The Movie record of src/types.ts (the fields used by the logic under
verification; Type is renamed Type' because Type is a Lean keyword). -/
structure Movie where
  Title : String
  Year : String
  imdbID : String
  Type' : String
  Poster : String
  deriving DecidableEq, Repr

/-- The inclusive year range selected in the UI ({ startYear, endYear }). -/
structure YearRange where
  startYear : ℤ
  endYear : ℤ
  deriving DecidableEq, Repr

/-! ## JavaScript parseInt (decimal) and String.split('–') -/

/-- Numeric value of a decimal digit character. -/
def digitVal (c : Char) : ℕ := c.toNat - '0'.toNat

/-- Accumulate the value of a leading run of decimal digits; returns the
value and whether at least one digit was read. -/
def digitsAux : List Char → ℕ → Bool → ℕ × Bool
  | [], acc, seen => (acc, seen)
  | c :: cs, acc, seen =>
    if c.isDigit then digitsAux cs (acc * 10 + digitVal c) true
    else (acc, seen)

/-- JavaScript whitespace accepted before the number by parseInt
(the common ASCII cases). -/
def isJsSpace (c : Char) : Bool :=
  c = ' ' ∨ c = '\t' ∨ c = '\n' ∨ c = '\r'

/-- JavaScript parseInt on a character list, decimal radix: skip leading
whitespace, optional sign, then a longest digit run; none encodes NaN. -/
def parseIntChars (cs : List Char) : Option ℤ :=
  let rest := cs.dropWhile isJsSpace
  match rest with
  | '-' :: ds => match digitsAux ds 0 false with
    | (v, true) => some (-(v : ℤ))
    | (_, false) => none
  | '+' :: ds => match digitsAux ds 0 false with
    | (v, true) => some (v : ℤ)
    | (_, false) => none
  | ds => match digitsAux ds 0 false with
    | (v, true) => some (v : ℤ)
    | (_, false) => none

/-- JavaScript parseInt on a string (decimal). -/
def parseIntD (s : String) : Option ℤ := parseIntChars s.toList

/-- Split a character list at every occurrence of a separator character,
as JavaScript String.prototype.split does with a one-character separator
("".split gives [""], a trailing separator yields a trailing ""). -/
def splitCharAux (sep : Char) : List Char → List Char → List (List Char)
  | [], acc => [acc.reverse]
  | c :: cs, acc =>
    if c = sep then acc.reverse :: splitCharAux sep cs []
    else splitCharAux sep cs (c :: acc)

/-- movie.Year.split('–'): split the release-year string on the en dash. -/
def splitYear (s : String) : List (List Char) :=
  splitCharAux '–' s.toList []

/-! ## The per-item year filter predicate (App.tsx lines 31-52) -/

/-- The endYear computation parseInt(yearParts[1]) || currentYear: the
current year is substituted when the parse is NaN or when it yields the
(falsy) number 0. -/
def jsEndYear (p : Option ℤ) (cur : ℤ) : ℤ :=
  match p with
  | some v => if v = 0 then cur else v
  | none => cur

/-- The filter callback of filterMoviesByYearRange applied to a release
year string: split on '–', parse the first component; with more than one
component compare both the start year and the defaulted end year against
the selected range, otherwise compare the single parsed year.  (The
isNaN(endYear) test of the source is vacuous because the || currentYear
fallback has already replaced NaN.) -/
def includeYear (yr : YearRange) (cur : ℤ) (year : String) : Bool :=
  let yearParts := splitYear year
  let movieYear := parseIntChars (yearParts.headD [])
  if 1 < yearParts.length then
    let endYear : ℤ := jsEndYear (parseIntChars (yearParts.getD 1 [])) cur
    match movieYear with
    | none => false
    | some y =>
      decide ((yr.startYear ≤ y ∧ y ≤ yr.endYear) ∨
              (yr.startYear ≤ endYear ∧ endYear ≤ yr.endYear))
  else
    match movieYear with
    | none => false
    | some y => decide (yr.startYear ≤ y ∧ y ≤ yr.endYear)

/-! ## IEEE-754 binary64 rounding, over exact integer fractions -/

/-- An exact rational written as num / den with den positive at every use
site; kept unnormalized so that all arithmetic is plain integer
arithmetic (no gcd), which the kernel evaluates directly. -/
structure Frac where
  num : ℤ
  den : ℤ
  deriving DecidableEq, Repr

/-- Mathematical floor of a fraction (den positive). -/
def Frac.floorVal (q : Frac) : ℤ := Int.fdiv q.num q.den

/-- Round a fraction (den positive) to the nearest integer, ties to even. -/
def rneInt (q : Frac) : ℤ :=
  let f := q.floorVal
  let r := q.num - f * q.den
  if 2 * r < q.den then f
  else if q.den < 2 * r then f + 1
  else if f % 2 = 0 then f else f + 1

/-- Floor of the base-2 logarithm of a natural number (0 for 0), by
structural recursion on a fuel argument so that the kernel can unfold it. -/
def natLog2Aux : ℕ → ℕ → ℕ
  | 0, _ => 0
  | fuel + 1, n => if 2 ≤ n then natLog2Aux fuel (n / 2) + 1 else 0

/-- Floor of log2 n for n ≥ 1. -/
def natLog2 (n : ℕ) : ℕ := natLog2Aux n n

/-- Floor of log2 (a / b) for integers a, b > 0.  For a ≥ b this is
log2 of the integer quotient; for a < b it is the negated least t with
a·2^t ≥ b, located from log2 of the inverse quotient. -/
def floorLog2 (a b : ℤ) : ℤ :=
  if b ≤ a then (natLog2 (Int.fdiv a b).toNat : ℤ)
  else
    let t0 := natLog2 (Int.fdiv b a).toNat
    if b ≤ a * 2 ^ t0 then -(t0 : ℤ) else -((t0 : ℤ) + 1)

/-- Round a positive fraction a / b to the nearest IEEE-754 binary64
value (round to nearest, ties to even), returned as an exact fraction:
scale into the 53-bit mantissa window [2^52, 2^53], round the mantissa to
an integer, and scale back. -/
def roundPosD (a b : ℤ) : Frac :=
  let e := floorLog2 a b
  let s := e - 52
  if 0 ≤ s then
    let k := rneInt ⟨a, b * 2 ^ s.toNat⟩
    ⟨k * 2 ^ s.toNat, 1⟩
  else
    let k := rneInt ⟨a * 2 ^ (-s).toNat, b⟩
    ⟨k, 2 ^ (-s).toNat⟩

/-- The IEEE-754 binary64 value nearest to a / b (b positive), as an
exact fraction. -/
def roundD (a b : ℤ) : Frac :=
  if a = 0 then ⟨0, 1⟩
  else if a < 0 then
    let r := roundPosD (-a) b
    ⟨-r.num, r.den⟩
  else roundPosD a b

/-- Double multiplication: the correctly rounded product of two doubles. -/
def jsMulD (x y : Frac) : Frac := roundD (x.num * y.num) (x.den * y.den)

/-- Double division: the correctly rounded quotient of two doubles
(divisor positive). -/
def jsDivD (x y : Frac) : Frac := roundD (x.num * y.den) (x.den * y.num)

/-! ## filterMoviesByYearRange (App.tsx lines 30-64) -/

/-- The pair returned by filterMoviesByYearRange. -/
structure FilterResult where
  filteredMovies : List Movie
  filteredTotal : ℤ
  deriving DecidableEq, Repr

/-- filterMoviesByYearRange: keep the movies whose Year passes the
per-item predicate, then estimate the cross-page total as
Math.max(filteredMovies.length, Math.floor(allResults * filterRatio))
where filterRatio is filteredMovies.length / movies.length (0 for an
empty page) computed in binary64 arithmetic.  The yearRange captured by
the React closure and the current calendar year are explicit
parameters. -/
def filterMoviesByYearRange (yr : YearRange) (cur : ℤ)
    (movies : List Movie) (allResults : ℤ) : FilterResult :=
  let filteredMovies := movies.filter (fun m => includeYear yr cur m.Year)
  let ratioD : Frac :=
    if 0 < movies.length then
      jsDivD (roundD (filteredMovies.length : ℤ) 1) (roundD (movies.length : ℤ) 1)
    else ⟨0, 1⟩
  let estimatedTotal : ℤ :=
    max (filteredMovies.length : ℤ) (jsMulD (roundD allResults 1) ratioD).floorVal
  ⟨filteredMovies, estimatedTotal⟩

/-! ## Search controller state (App.tsx state hooks and searchMovies) -/

/-- The controller state relevant to the verified claims: query text,
accumulated results, reported total, page cursor, loading flag, error
banner and the selected year range.  (selectedMovie, the type filter and
the watchlist live outside the search data path and are modelled
separately or not at all.) -/
structure SearchState where
  query : String
  movies : List Movie
  totalResults : ℤ
  currentPage : ℕ
  loading : Bool
  error : Option String
  yearRange : YearRange
  deriving DecidableEq, Repr

/-- The initial controller state created by the useState hooks. -/
def initState : SearchState :=
  { query := "", movies := [], totalResults := 0, currentPage := 1,
    loading := false, error := none, yearRange := ⟨1970, 2024⟩ }

/-- The outcome of the single HTTP request issued by one searchMovies
call: a payload with Response "True" (carrying Search and the parsed
totalResults), a payload with Response "False" (carrying the optional
Error string), or a thrown failure (carrying the message when the thrown
value was an Error). -/
inductive SearchOutcome where
  | ok (search : List Movie) (totalResults : ℤ)
  | apiFalse (errMsg : Option String)
  | thrown (msg : Option String)
  deriving DecidableEq, Repr

/-- JavaScript e || d on an optional string: the default replaces both an
absent and an empty (falsy) message. -/
def jsOrDefault (e : Option String) (d : String) : String :=
  match e with
  | some s => if s = "" then d else s
  | none => d

/-- The test !query.trim(): true when the query consists only of
whitespace. -/
def trimEmpty (s : String) : Bool := s.toList.all isJsSpace

/-- The error text for an empty filtered first page. -/
def noMoviesMsg (yr : YearRange) : String :=
  "No movies found between " ++ toString yr.startYear ++ " and " ++
    toString yr.endYear

/-- searchMovies(page) as an atomic step (App.tsx lines 67-128): an empty
trimmed query clears movies, error and total and returns early; otherwise
the request outcome is folded into the state exactly as the success,
Response-"False" and catch branches do, with loading false at the end in
every completed case (the finally block). -/
def searchMovies (cur : ℤ) (s : SearchState) (page : ℕ)
    (out : SearchOutcome) : SearchState :=
  if trimEmpty s.query then
    { s with movies := [], error := none, totalResults := 0 }
  else
    match out with
    | .ok search totalApiResults =>
      let r := filterMoviesByYearRange s.yearRange cur search totalApiResults
      { s with
        movies := if page = 1 then r.filteredMovies else s.movies ++ r.filteredMovies,
        totalResults := r.filteredTotal,
        error := if r.filteredMovies.length = 0 ∧ page = 1 then
            some (noMoviesMsg s.yearRange)
          else none,
        loading := false }
    | .apiFalse e =>
      { s with error := some (jsOrDefault e "No results found"),
               movies := [], totalResults := 0, loading := false }
    | .thrown m =>
      { s with error := some (m.getD "An error occurred while searching"),
               movies := [], totalResults := 0, loading := false }

/-- onSearch: reset the page cursor to 1 and run searchMovies(1). -/
def onSearchStep (cur : ℤ) (s : SearchState) (out : SearchOutcome) : SearchState :=
  searchMovies cur { s with currentPage := 1 } 1 out

/-- The fetch decision inside loadMore (App.tsx lines 158-164): the page
to request, or none when the guard !loading && movies.length <
totalResults blocks the call. -/
def loadMoreFetch (s : SearchState) : Option ℕ :=
  if s.loading = false ∧ (s.movies.length : ℤ) < s.totalResults then
    some (s.currentPage + 1)
  else none

/-- loadMore as an atomic step: when the guard passes, advance the page
cursor and run searchMovies on the next page; otherwise leave the state
untouched. -/
def loadMore (cur : ℤ) (s : SearchState) (out : SearchOutcome) : SearchState :=
  match loadMoreFetch s with
  | some p => searchMovies cur { s with currentPage := p } p out
  | none => s

/-- The setQuery handler together with the query-becomes-empty effect
(App.tsx lines 199-205): typing a blank query clears movies and total. -/
def setQueryStep (s : SearchState) (q : String) : SearchState :=
  if trimEmpty q then
    { s with query := q, movies := [], totalResults := 0 }
  else { s with query := q }

/-- The year-range change effect (App.tsx lines 208-220): with a nonempty
result list, re-filter the in-memory movies against the (new) range and
the stored total, and recompute the error banner. -/
def refilterEffect (cur : ℤ) (s : SearchState) : SearchState :=
  if 0 < s.movies.length then
    let r := filterMoviesByYearRange s.yearRange cur s.movies s.totalResults
    { s with movies := r.filteredMovies,
             totalResults := r.filteredTotal,
             error := if r.filteredMovies.length = 0 then
                 some (noMoviesMsg s.yearRange)
               else none }
  else s

/-- The controller states reachable from the initial state through typing
a query, completed searches, completed load-more fetches, and year-range
changes followed by the re-filter effect; the request outcomes are chosen
freely by the environment. -/
inductive Reach (cur : ℤ) : SearchState → Prop
  | init : Reach cur initState
  | setQuery (q : String) {s : SearchState} :
      Reach cur s → Reach cur (setQueryStep s q)
  | doSearch (out : SearchOutcome) {s : SearchState} :
      Reach cur s → Reach cur (onSearchStep cur s out)
  | doLoadMore (out : SearchOutcome) {s : SearchState} :
      Reach cur s → Reach cur (loadMore cur s out)
  | setYearRange (yr : YearRange) {s : SearchState} :
      Reach cur s → Reach cur (refilterEffect cur { s with yearRange := yr })

/-! ## Watchlist manager (App.tsx lines 172-196) -/

/-- addToWatchlist: remove the entries sharing the toggled movie's imdbID
when one is present, append the movie at the end otherwise. -/
def addToWatchlist (wl : List Movie) (m : Movie) : List Movie :=
  if wl.any (fun x => x.imdbID = m.imdbID) then
    wl.filter (fun x => ¬ (x.imdbID = m.imdbID))
  else wl ++ [m]

/-- The watchlist and its dialog flag. -/
structure WatchState where
  watchlist : List Movie
  watchlistOpen : Bool
  deriving DecidableEq, Repr

/-- One watchlist toggle together with the dialog effect (App.tsx lines
191-196): after the update, a nonempty watchlist forces the dialog open;
an empty one leaves the flag as it was. -/
def toggleStep (s : WatchState) (m : Movie) : WatchState :=
  let wl := addToWatchlist s.watchlist m
  { watchlist := wl,
    watchlistOpen := if 0 < wl.length then true else s.watchlistOpen }

/-- handleCloseWatchlist: dismiss the dialog. -/
def closeWatchlist (s : WatchState) : WatchState :=
  { s with watchlistOpen := false }

/-- Watchlist states reachable from startup (empty list, closed dialog)
by toggles and dialog dismissals. -/
inductive WReach : WatchState → Prop
  | init : WReach ⟨[], false⟩
  | toggle (m : Movie) {s : WatchState} : WReach s → WReach (toggleStep s m)
  | close {s : WatchState} : WReach s → WReach (closeWatchlist s)

/-! ## Sample data used by witnesses and counterexamples -/

/-- A movie with a plain single release year. -/
def mv2000 : Movie := ⟨"A", "2000", "tt0001", "movie", "p"⟩

/-- A movie whose release year does not parse. -/
def mvNA : Movie := ⟨"B", "N/A", "tt0002", "movie", "p"⟩

/-- A series with an open-ended release range. -/
def mvOpen2020 : Movie := ⟨"C", "2020–", "tt0003", "series", "p"⟩

/-! ## C10: the filtered list is a pointwise-decided subsequence -/

/-- C10: for every input list, year range, current year and reported
total, the list returned by filterMoviesByYearRange is exactly the
List.filter of the input by a predicate of the item's Year string alone
(so membership never depends on the other items), and in particular it is
a subsequence of the input: order preserved, nothing duplicated, nothing
introduced. -/
theorem c10_filter_sublist (yr : YearRange) (cur : ℤ) (l : List Movie) (n : ℤ) :
    (filterMoviesByYearRange yr cur l n).filteredMovies =
      l.filter (fun m => includeYear yr cur m.Year) ∧
    (filterMoviesByYearRange yr cur l n).filteredMovies.Sublist l :=
  ⟨rfl, List.filter_sublist l⟩

/-! ## C9: filtering is idempotent -/

/-- C9: for every year range with startYear ≤ endYear, filtering a list
already produced by filterMoviesByYearRange with the same range (and any
reported totals) returns that list unchanged. -/
theorem c9_filter_idempotent (yr : YearRange) (cur : ℤ) (l : List Movie)
    (n n' : ℤ) (h : yr.startYear ≤ yr.endYear) :
    (filterMoviesByYearRange yr cur
        (filterMoviesByYearRange yr cur l n).filteredMovies n').filteredMovies =
      (filterMoviesByYearRange yr cur l n).filteredMovies := by
  show List.filter _ (List.filter _ l) = List.filter _ l
  rw [List.filter_filter]
  simp [Bool.and_self]

/-- Concrete instance of c9_filter_idempotent. -/
theorem c9_filter_idempotent_witness :
    (filterMoviesByYearRange ⟨1990, 2010⟩ 2024
        (filterMoviesByYearRange ⟨1990, 2010⟩ 2024 [mv2000, mvNA] 7).filteredMovies 7).filteredMovies =
      (filterMoviesByYearRange ⟨1990, 2010⟩ 2024 [mv2000, mvNA] 7).filteredMovies :=
  c9_filter_idempotent ⟨1990, 2010⟩ 2024 [mv2000, mvNA] 7 7 (by decide)

/-! ## C1: the per-item inclusion rule -/

/-- Modelled from the claim sentence of C1: the end year is the parsed
upper bound, with the current calendar year substituted only when the
upper bound is missing or non-numeric — not when it parses to 0. -/
def claimEndYear (p : Option ℤ) (cur : ℤ) : ℤ := p.getD cur

/-- Modelled from the claim sentence of C1: the per-item rule exactly as
stated, using claimEndYear for the upper bound. -/
def claimIncludeYear (yr : YearRange) (cur : ℤ) (year : String) : Bool :=
  let yearParts := splitYear year
  let movieYear := parseIntChars (yearParts.headD [])
  if 1 < yearParts.length then
    let endYear : ℤ := claimEndYear (parseIntChars (yearParts.getD 1 [])) cur
    match movieYear with
    | none => false
    | some y =>
      decide ((yr.startYear ≤ y ∧ y ≤ yr.endYear) ∨
              (yr.startYear ≤ endYear ∧ endYear ≤ yr.endYear))
  else
    match movieYear with
    | none => false
    | some y => decide (yr.startYear ≤ y ∧ y ≤ yr.endYear)

/-- C1 fails as stated: for the release year "2020–0" and the range
[0, 0] (0 ≤ 0), the upper bound parses to the numeral 0, so the claim
includes the item (its end year 0 lies in the range) while the code
substitutes the current year for the falsy 0 and excludes it. -/
theorem c1_year_rule_counterexample :
    (0 : ℤ) ≤ 0 ∧
    claimIncludeYear ⟨0, 0⟩ 2024 "2020–0" = true ∧
    includeYear ⟨0, 0⟩ 2024 "2020–0" = false := by decide

/-- C1 (amended): the per-item rule holds with the end year defaulting to
the current calendar year when the parsed upper bound is missing,
non-numeric, or the (JavaScript-falsy) number 0: an item with a range
separator is included iff its start year parses and the start year or the
so-defaulted end year lies in the range; an item without a separator is
included iff its single year parses and lies in the range; unparseable
years are excluded. -/
theorem c1_year_rule (yr : YearRange) (cur : ℤ) (year : String)
    (h : yr.startYear ≤ yr.endYear) :
    includeYear yr cur year = true ↔
      (if 1 < (splitYear year).length then
        ∃ y, parseIntChars ((splitYear year).headD []) = some y ∧
          ((yr.startYear ≤ y ∧ y ≤ yr.endYear) ∨
           (yr.startYear ≤ jsEndYear (parseIntChars ((splitYear year).getD 1 [])) cur ∧
            jsEndYear (parseIntChars ((splitYear year).getD 1 [])) cur ≤ yr.endYear))
      else
        ∃ y, parseIntChars ((splitYear year).headD []) = some y ∧
          yr.startYear ≤ y ∧ y ≤ yr.endYear) := by
  unfold includeYear
  by_cases hl : 1 < (splitYear year).length
  · simp only [if_pos hl]
    cases hy : parseIntChars ((splitYear year).headD []) with
    | none => simp [hy]
    | some y => simp [hy, decide_eq_true_eq]
  · simp only [if_neg hl]
    cases hy : parseIntChars ((splitYear year).headD []) with
    | none => simp [hy]
    | some y => simp [hy, decide_eq_true_eq]

/-- Concrete instance of c1_year_rule. -/
theorem c1_year_rule_witness : includeYear ⟨1990, 2010⟩ 2024 "2000" = true :=
  (c1_year_rule ⟨1990, 2010⟩ 2024 "2000" (by decide)).mpr (by
    rw [if_neg (by decide)]
    exact ⟨2000, by decide, by decide, by decide⟩)

/-! ## C4: the open-ended range "2020–" -/

/-- C4 fails as stated: with current year 2024, the selected range
[2021, 2023] overlaps the interval [2020, 2024] (2021 ≤ 2024 and
2020 ≤ 2023) yet the code excludes the item, because neither endpoint
2020 nor 2024 lies inside [2021, 2023]. -/
theorem c4_open_range_counterexample :
    ((2021 : ℤ) ≤ 2023 ∧ (2021 : ℤ) ≤ 2024 ∧ (2020 : ℤ) ≤ 2023) ∧
    includeYear ⟨2021, 2023⟩ 2024 "2020–" = false := by decide

/-- C4 (amended): with current year 2024, an item whose release year is
"2020–" is included for exactly those ranges [a, b] with a ≤ b that
contain the endpoint 2020 or the endpoint 2024; a range lying strictly
between the endpoints overlaps [2020, 2024] but excludes the item. -/
theorem c4_open_range (a b : ℤ) (h : a ≤ b) :
    includeYear ⟨a, b⟩ 2024 "2020–" = true ↔
      ((a ≤ 2020 ∧ 2020 ≤ b) ∨ (a ≤ 2024 ∧ 2024 ≤ b)) := by
  have key : includeYear ⟨a, b⟩ 2024 "2020–" =
      decide ((a ≤ 2020 ∧ 2020 ≤ b) ∨ (a ≤ 2024 ∧ 2024 ≤ b)) := rfl
  rw [key]
  exact decide_eq_true_iff

/-- Concrete instance of c4_open_range. -/
theorem c4_open_range_witness : includeYear ⟨2020, 2020⟩ 2024 "2020–" = true :=
  (c4_open_range 2020 2020 (by decide)).mpr (Or.inl (by decide))

/-! ## C2: the estimated total -/

set_option maxRecDepth 20000

/-- Modelled from the claim sentence of C2: the estimated total computed
with exact rational arithmetic,
max(filtered.length, floor(n · filtered.length / items.length)), with the
ratio defined as 0 when the page is empty. -/
def claimEstimatedTotal (f m : ℕ) (n : ℤ) : ℤ :=
  max (f : ℤ) (if 0 < m then Frac.floorVal ⟨n * (f : ℤ), (m : ℤ)⟩ else 0)

/-- The amended formula of C2: the same expression with the ratio and the
product evaluated in IEEE-754 binary64 arithmetic, as JavaScript does. -/
def claimEstimatedTotalD (f m : ℕ) (n : ℤ) : ℤ :=
  let ratio : Frac :=
    if 0 < m then jsDivD (roundD (f : ℤ) 1) (roundD (m : ℤ) 1) else ⟨0, 1⟩
  max (f : ℤ) (jsMulD (roundD n 1) ratio).floorVal

/-- A page of 100 items of which 29 pass the [1990, 2010] filter. -/
def movies100 : List Movie :=
  List.replicate 29 mv2000 ++ List.replicate 71 mvNA

/-- C2 fails as stated: on a page of 100 items with 29 matching and a
reported total of 200, the mathematical formula gives
max(29, floor(200 · 29/100)) = 58, but the code computes
Math.floor(200 * (29/100)) in binary64 arithmetic, where 29/100 rounds
below 0.29 and the product rounds to just under 58, so the returned
estimate is 57. -/
theorem c2_estimated_total_counterexample :
    (filterMoviesByYearRange ⟨1990, 2010⟩ 2024 movies100 200).filteredTotal = 57 ∧
    claimEstimatedTotal
      (filterMoviesByYearRange ⟨1990, 2010⟩ 2024 movies100 200).filteredMovies.length
      movies100.length 200 = 58 := by decide

/-- C2 (amended): the filter's returned estimated total equals
max(filtered.length, floor(d)) where d is the IEEE-754 double-precision
evaluation of reportedTotal × (filtered.length / items.length) — each
operation rounded to nearest, ties to even — with the ratio 0 when
items.length = 0; this can fall one below the exact mathematical floor. -/
theorem c2_estimated_total (yr : YearRange) (cur : ℤ) (l : List Movie) (n : ℤ) :
    (filterMoviesByYearRange yr cur l n).filteredTotal =
      claimEstimatedTotalD
        (filterMoviesByYearRange yr cur l n).filteredMovies.length l.length n := rfl

/-! ## C8: the toggle operation and the no-duplicate invariant -/

/-- C8: toggling removes the entries carrying the toggled id when one is
present and appends the movie at the end otherwise, and every state
reachable from the empty watchlist has pairwise-distinct imdbIDs (so the
filter removes exactly one entry there). -/
theorem addToWatchlist_nodup (wl : List Movie) (m : Movie)
    (h : (wl.map Movie.imdbID).Nodup) :
    ((addToWatchlist wl m).map Movie.imdbID).Nodup := by
  unfold addToWatchlist
  split
  · exact List.Nodup.sublist (List.Sublist.map _ (List.filter_sublist _)) h
  · rename_i hany
    rw [List.map_append]
    refine List.Nodup.append h (List.nodup_singleton _) ?_
    intro a ha hb
    rcases List.mem_map.mp ha with ⟨x, hx, hax⟩
    rcases List.mem_singleton.mp hb with rfl
    have hall : ∀ x ∈ wl, ¬ x.imdbID = m.imdbID := by simpa using hany
    exact hall x hx hax

/-- C8: toggling removes the entries carrying the toggled id when one is
present and appends the movie at the end otherwise, and every state
reachable from the empty watchlist has pairwise-distinct imdbIDs (so the
filter removes exactly one entry there). -/
theorem c8_watchlist_toggle :
    (∀ (wl : List Movie) (m : Movie), (∃ x ∈ wl, x.imdbID = m.imdbID) →
        addToWatchlist wl m = wl.filter (fun x => ¬ (x.imdbID = m.imdbID))) ∧
    (∀ (wl : List Movie) (m : Movie), ¬ (∃ x ∈ wl, x.imdbID = m.imdbID) →
        addToWatchlist wl m = wl ++ [m]) ∧
    ∀ s : WatchState, WReach s → (s.watchlist.map Movie.imdbID).Nodup := by
  refine ⟨?_, ?_, ?_⟩
  · intro wl m hex
    unfold addToWatchlist
    rw [if_pos (by simpa using hex)]
  · intro wl m hex
    unfold addToWatchlist
    rw [if_neg (by simpa using hex)]
  · intro s hs
    induction hs with
    | init => simp
    | close _ ih => exact ih
    | toggle m _ ih => exact addToWatchlist_nodup _ m ih

/-- Concrete instance of c8_watchlist_toggle: removal, append, and the
invariant after one reachable toggle. -/
theorem c8_watchlist_toggle_witness :
    addToWatchlist [mv2000] mv2000 =
      List.filter (fun x => ¬ (x.imdbID = mv2000.imdbID)) [mv2000] ∧
    addToWatchlist [mvNA] mv2000 = [mvNA, mv2000] ∧
    ((toggleStep ⟨[], false⟩ mv2000).watchlist.map Movie.imdbID).Nodup :=
  ⟨c8_watchlist_toggle.1 [mv2000] mv2000 ⟨mv2000, by decide, rfl⟩,
   (c8_watchlist_toggle.2.1 [mvNA] mv2000 (by decide)).trans (by decide),
   c8_watchlist_toggle.2.2 _ (WReach.toggle mv2000 WReach.init)⟩

/-! ## C5: when the watchlist dialog opens -/

/-- C5 fails as stated: the dialog-opening effect fires on every
watchlist change with a nonempty result, not only on the empty-to-
nonempty transition.  From the reachable state with watchlist [mv2000]
and the dialog closed (toggle mv2000, then dismiss the dialog), toggling
a second movie leaves the watchlist nonempty before and after, yet the
effect reopens the dialog, contradicting the claim that such a toggle
does not open the overlay. -/
theorem c5_dialog_counterexample :
    ¬ (∀ (s : WatchState) (m : Movie), WReach s →
        (s.watchlist = [] → (toggleStep s m).watchlist ≠ [] →
          (toggleStep s m).watchlistOpen = true) ∧
        ((s.watchlist ≠ [] ∨ (toggleStep s m).watchlist = []) →
          (toggleStep s m).watchlistOpen = s.watchlistOpen)) := by
  intro h
  have hr : WReach (closeWatchlist (toggleStep ⟨[], false⟩ mv2000)) :=
    WReach.close (WReach.toggle mv2000 WReach.init)
  have h2 := (h _ mvNA hr).2 (Or.inl (by decide))
  revert h2
  decide

/-- C5 (amended): a toggle opens the overlay exactly when the resulting
watchlist is non-empty — in particular on the empty-to-non-empty
transition — and a toggle that empties the watchlist leaves the overlay
flag unchanged. -/
theorem c5_dialog_effect (s : WatchState) (m : Movie) :
    ((toggleStep s m).watchlist ≠ [] → (toggleStep s m).watchlistOpen = true) ∧
    ((toggleStep s m).watchlist = [] →
      (toggleStep s m).watchlistOpen = s.watchlistOpen) := by
  constructor
  · intro h
    have h' : addToWatchlist s.watchlist m ≠ [] := h
    show (if 0 < (addToWatchlist s.watchlist m).length then true
          else s.watchlistOpen) = true
    rw [if_pos (List.length_pos.mpr h')]
  · intro h
    have h' : addToWatchlist s.watchlist m = [] := h
    show (if 0 < (addToWatchlist s.watchlist m).length then true
          else s.watchlistOpen) = s.watchlistOpen
    rw [h']
    simp

/-- Concrete instance of c5_dialog_effect: opening on the first toggle,
and an emptying toggle that leaves the (open) flag as it is. -/
theorem c5_dialog_effect_witness :
    (toggleStep ⟨[], false⟩ mv2000).watchlistOpen = true ∧
    (toggleStep ⟨[mv2000], true⟩ mv2000).watchlistOpen =
      (⟨[mv2000], true⟩ : WatchState).watchlistOpen :=
  ⟨(c5_dialog_effect ⟨[], false⟩ mv2000).1 (by decide),
   (c5_dialog_effect ⟨[mv2000], true⟩ mv2000).2 (by decide)⟩

/-! ## C6: the loadMore guard -/

/-- C6: loadMore issues no fetch and leaves the state untouched exactly
when a fetch is in flight or the accumulated list has reached the stored
total; otherwise it advances the page cursor and runs the search for the
next page. -/
theorem c6_load_more (cur : ℤ) (s : SearchState) (out : SearchOutcome) :
    ((s.loading = true ∨ s.totalResults ≤ (s.movies.length : ℤ)) →
      loadMoreFetch s = none ∧ loadMore cur s out = s) ∧
    ((s.loading = false ∧ (s.movies.length : ℤ) < s.totalResults) →
      loadMoreFetch s = some (s.currentPage + 1) ∧
      loadMore cur s out =
        searchMovies cur { s with currentPage := s.currentPage + 1 }
          (s.currentPage + 1) out) := by
  constructor
  · intro h
    have hneg : ¬ (s.loading = false ∧ (s.movies.length : ℤ) < s.totalResults) := by
      rintro ⟨h1, h2⟩
      rcases h with h | h
      · rw [h] at h1; exact absurd h1 (by decide)
      · exact absurd h2 (not_lt.mpr h)
    have hf : loadMoreFetch s = none := by
      unfold loadMoreFetch; rw [if_neg hneg]
    exact ⟨hf, by unfold loadMore; rw [hf]⟩
  · intro h
    have hf : loadMoreFetch s = some (s.currentPage + 1) := by
      unfold loadMoreFetch; rw [if_pos h]
    exact ⟨hf, by unfold loadMore; rw [hf]⟩

/-- Concrete instance of c6_load_more: the blocked branch at a state with
length = total, and the fetching branch at a state with one of three
results loaded. -/
theorem c6_load_more_witness :
    (loadMoreFetch initState = none ∧
      loadMore 2024 initState (SearchOutcome.apiFalse none) = initState) ∧
    (loadMoreFetch { initState with query := "a", movies := [mv2000], totalResults := 3 } =
        some 2 ∧
      loadMore 2024 { initState with query := "a", movies := [mv2000], totalResults := 3 }
          (SearchOutcome.apiFalse none) =
        searchMovies 2024
          { initState with query := "a", movies := [mv2000], totalResults := 3, currentPage := 2 }
          2 (SearchOutcome.apiFalse none)) :=
  ⟨(c6_load_more 2024 initState (SearchOutcome.apiFalse none)).1 (Or.inr (by decide)),
   (c6_load_more 2024 { initState with query := "a", movies := [mv2000], totalResults := 3 }
      (SearchOutcome.apiFalse none)).2 ⟨rfl, by decide⟩⟩

/-! ## C7: error surfacing and the loading flag -/

/-- C7: for a non-empty trimmed query, a Response-"False" payload
surfaces the catalog's Error (JavaScript-defaulted to "No results found")
and empties movies and total; a thrown failure surfaces the thrown
message (or the generic fallback) and empties movies and total; and the
loading flag is false after every completed outcome. -/
theorem c7_search_failures (cur : ℤ) (s : SearchState) (page : ℕ)
    (out : SearchOutcome) (h : trimEmpty s.query = false) :
    (searchMovies cur s page out).loading = false ∧
    (∀ e, out = SearchOutcome.apiFalse e →
      (searchMovies cur s page out).error = some (jsOrDefault e "No results found") ∧
      (searchMovies cur s page out).movies = [] ∧
      (searchMovies cur s page out).totalResults = 0) ∧
    (∀ msg, out = SearchOutcome.thrown msg →
      (searchMovies cur s page out).error =
        some (msg.getD "An error occurred while searching") ∧
      (searchMovies cur s page out).movies = [] ∧
      (searchMovies cur s page out).totalResults = 0) := by
  unfold searchMovies
  rw [if_neg (by simp [h])]
  cases out with
  | ok l n =>
    refine ⟨rfl, ?_, ?_⟩
    · intro e he; exact SearchOutcome.noConfusion he
    · intro msg hm; exact SearchOutcome.noConfusion hm
  | apiFalse e =>
    refine ⟨rfl, ?_, ?_⟩
    · intro e' he
      injection he with hsame
      subst hsame
      exact ⟨rfl, rfl, rfl⟩
    · intro msg hm; exact SearchOutcome.noConfusion hm
  | thrown msg =>
    refine ⟨rfl, ?_, ?_⟩
    · intro e' he; exact SearchOutcome.noConfusion he
    · intro msg' hm
      injection hm with hsame
      subst hsame
      exact ⟨rfl, rfl, rfl⟩

/-- Concrete instance of c7_search_failures: the scenario with
Response "False" and Error "Movie not found!". -/
theorem c7_search_failures_witness :
    (searchMovies 2024 { initState with query := "Batman" } 1
        (SearchOutcome.apiFalse (some "Movie not found!"))).loading = false ∧
    (searchMovies 2024 { initState with query := "Batman" } 1
        (SearchOutcome.apiFalse (some "Movie not found!"))).error =
      some (jsOrDefault (some "Movie not found!") "No results found") ∧
    (searchMovies 2024 { initState with query := "Batman" } 1
        (SearchOutcome.apiFalse (some "Movie not found!"))).movies = [] ∧
    (searchMovies 2024 { initState with query := "Batman" } 1
        (SearchOutcome.apiFalse (some "Movie not found!"))).totalResults = 0 := by
  have T := c7_search_failures 2024 { initState with query := "Batman" } 1
      (SearchOutcome.apiFalse (some "Movie not found!")) (by decide)
  exact ⟨T.1, (T.2.1 _ rfl).1, (T.2.1 _ rfl).2.1, (T.2.1 _ rfl).2.2⟩

/-! ## C3: the length-versus-total invariant -/

/-- C3 fails as stated: a reachable state violates the invariant.  After
a page-1 search returning one matching item with reported total 3 (stored
total becomes max(1, 3·1) = 3), loadMore fires and page 2 returns two
items of which one matches; the append makes the list length 2 while the
stored total is recomputed from the new page alone as max(1, ⌊3·(1/2)⌋)
= 1, so the accumulated length 2 exceeds the stored total 1. -/
theorem c3_invariant_counterexample :
    ¬ (∀ s : SearchState, Reach 2024 s →
        (s.movies.length : ℤ) ≤ s.totalResults) := by
  intro h
  have hr : Reach 2024
      (loadMore 2024
        (onSearchStep 2024 (setQueryStep initState "a")
          (SearchOutcome.ok [mv2000] 3))
        (SearchOutcome.ok [mv2000, mvNA] 3)) :=
    Reach.doLoadMore _ (Reach.doSearch _ (Reach.setQuery "a" Reach.init))
  have h2 := h _ hr
  revert h2
  decide

/-- C3 (amended): the accumulated length never exceeds the stored total
after any page-1 replacement, and the year-range re-filter preserves the
bound; but a page-greater-than-1 append recomputes the total from the
newest page alone and can leave the accumulated length above it. -/
theorem c3_invariant_page1_refilter (cur : ℤ) :
    (∀ (s : SearchState) (out : SearchOutcome),
      ((searchMovies cur s 1 out).movies.length : ℤ) ≤
        (searchMovies cur s 1 out).totalResults) ∧
    (∀ s : SearchState, (s.movies.length : ℤ) ≤ s.totalResults →
      ((refilterEffect cur s).movies.length : ℤ) ≤
        (refilterEffect cur s).totalResults) := by
  have key : ∀ (yr : YearRange) (c : ℤ) (l : List Movie) (n : ℤ),
      ((filterMoviesByYearRange yr c l n).filteredMovies.length : ℤ) ≤
        (filterMoviesByYearRange yr c l n).filteredTotal :=
    fun yr c l n => le_max_left _ _
  constructor
  · intro s out
    unfold searchMovies
    by_cases hq : trimEmpty s.query
    · rw [if_pos hq]; simp
    · rw [if_neg hq]
      cases out with
      | ok l n =>
        show ((filterMoviesByYearRange s.yearRange cur l n).filteredMovies.length : ℤ) ≤
          (filterMoviesByYearRange s.yearRange cur l n).filteredTotal
        exact key s.yearRange cur l n
      | apiFalse e => show (((List.nil : List Movie).length : ℤ) ≤ (0 : ℤ)); simp
      | thrown msg => show (((List.nil : List Movie).length : ℤ) ≤ (0 : ℤ)); simp
  · intro s hinv
    unfold refilterEffect
    by_cases hm : 0 < s.movies.length
    · rw [if_pos hm]
      show ((filterMoviesByYearRange s.yearRange cur s.movies s.totalResults).filteredMovies.length : ℤ) ≤
        (filterMoviesByYearRange s.yearRange cur s.movies s.totalResults).filteredTotal
      exact key s.yearRange cur s.movies s.totalResults
    · rw [if_neg hm]; exact hinv

/-- Concrete instance of c3_invariant_page1_refilter. -/
theorem c3_invariant_page1_refilter_witness :
    (((searchMovies 2024 { initState with query := "a" } 1
        (SearchOutcome.ok [mv2000] 5)).movies.length : ℤ) ≤
      (searchMovies 2024 { initState with query := "a" } 1
        (SearchOutcome.ok [mv2000] 5)).totalResults) ∧
    (((refilterEffect 2024 initState).movies.length : ℤ) ≤
      (refilterEffect 2024 initState).totalResults) :=
  ⟨(c3_invariant_page1_refilter 2024).1 { initState with query := "a" }
      (SearchOutcome.ok [mv2000] 5),
   (c3_invariant_page1_refilter 2024).2 initState (by decide)⟩
